import Mathlib

/-!
Verification development for the `system-bridge-gui` repository.

The Python sources are shallowly embedded below:

* `systembridgegui/__init__.py` (`Application`): the WebSocket listener
  lifecycle (`_setup_listener`, `_listen_for_data`, `_setup_websocket`,
  `_exit_application`, `_handle_module`) is modelled as pure state
  transformers over `AppState`; raised Python exceptions become explicit
  `Option`/`Except` error values, and the behaviour of the external
  environment (how long awaits take, which calls raise) is an explicit
  environment record.
* `systembridgegui/window/main.py` and `window/player.py`: the URL /
  query-string construction (`urllib.parse.urlencode` with its default
  `quote_plus` encoder, and Python dict-literal insertion-order semantics)
  and the player's URL-change handler.
* `systembridgegui/__main__.py` together with `Application.__init__`:
  the startup commands and their missing-payload handling.
-/

namespace SystemBridgeGui

/-! ## Percent-encoding and query strings (window/main.py, window/player.py)

`urlencode(dict)` in `urllib.parse` with default arguments stringifies each
key and value, encodes both with `quote_plus` (every character except ASCII
letters, digits, `_`, `.`, `-`, `~` is percent-encoded from its UTF-8 bytes,
with space becoming `+`), and joins `k=v` pairs with `&` in dict insertion
order. -/

/-- Characters `quote_plus` leaves unescaped: ASCII alphanumerics and
`_`, `.`, `-`, `~`. -/
def alwaysSafeChar (c : Char) : Bool :=
  (c.isAlphanum && decide (c.toNat < 128)) || c == '_' || c == '.' || c == '-' || c == '~'

/-- The UTF-8 encoding of a character, as a list of byte values. -/
def utf8Bytes (c : Char) : List Nat :=
  let n := c.toNat
  if n < 0x80 then [n]
  else if n < 0x800 then [0xC0 + n / 0x40, 0x80 + n % 0x40]
  else if n < 0x10000 then
    [0xE0 + n / 0x1000, 0x80 + (n / 0x40) % 0x40, 0x80 + n % 0x40]
  else
    [0xF0 + n / 0x40000, 0x80 + (n / 0x1000) % 0x40, 0x80 + (n / 0x40) % 0x40,
     0x80 + n % 0x40]

/-- Uppercase hexadecimal digit for `n < 16`. -/
def hexDigitChar (n : Nat) : Char :=
  if n < 10 then Char.ofNat (48 + n) else Char.ofNat (55 + n)

/-- Percent escape of one byte, uppercase hex as CPython produces. -/
def percentByte (b : Nat) : String :=
  String.mk ['%', hexDigitChar (b / 16), hexDigitChar (b % 16)]

/-- Python `quote_plus` on a single character. -/
def quotePlusChar (c : Char) : String :=
  if alwaysSafeChar c then String.mk [c]
  else if c == ' ' then "+"
  else String.join ((utf8Bytes c).map percentByte)

/-- Python `urllib.parse.quote_plus` with default safe set. -/
def quotePlus (s : String) : String :=
  String.join (s.data.map quotePlusChar)

/-- Python `urllib.parse.urlencode` on an insertion-ordered list of pairs:
`'&'.join(f"{quote_plus(k)}={quote_plus(v)}" for k, v in pairs)`. -/
def urlencode : List (String × String) → String
  | [] => ""
  | [p] => quotePlus p.1 ++ "=" ++ quotePlus p.2
  | p :: q :: rest => quotePlus p.1 ++ "=" ++ quotePlus p.2 ++ "&" ++ urlencode (q :: rest)

/-- The query-string suffix contributed by the pairs after the first:
empty for no pairs, otherwise `&` followed by their encoding. -/
def urlencodeTail (pairs : List (String × String)) : String :=
  match pairs with
  | [] => ""
  | _ => "&" ++ urlencode pairs

/-- One key/value insertion into a Python dict literal: a duplicate key keeps
its original position and takes the new value; a new key is appended. -/
def dictInsert (d : List (String × String)) (kv : String × String) :
    List (String × String) :=
  if d.any (fun p => p.1 == kv.1) then
    d.map (fun p => if p.1 == kv.1 then (p.1, kv.2) else p)
  else d ++ [kv]

/-- The insertion-ordered pair list denoted by a Python dict literal built
from `l` left to right (covers `{a: x, b: y, **rest}`). -/
def dictOfPairs (l : List (String × String)) : List (String × String) :=
  l.foldl dictInsert []

/-- Modelled from the spec: the query key for the bearer token
(`QUERY_TOKEN` lives in the external `systembridgeshared.const`; the spec
gives the produced query string as `token=abc&api-port=8080`). -/
def QUERY_TOKEN : String := "token"

/-- Modelled from the spec: the query key for the API port
(`QUERY_API_PORT` lives in the external `systembridgeshared.const`; the spec
gives the produced query string as `token=abc&api-port=8080`). -/
def QUERY_API_PORT : String := "api-port"

/-- Query pairs built by `MainWindow.setup` (window/main.py lines 58-63):
`urlencode({QUERY_TOKEN: token, QUERY_API_PORT: api_port})`. -/
def mainWindowQueryPairs (token : String) (apiPort : Nat) :
    List (String × String) :=
  dictOfPairs [(QUERY_TOKEN, token), (QUERY_API_PORT, toString apiPort)]

/-- The URL loaded by `MainWindow.setup`. -/
def mainWindowUrl (token : String) (apiPort : Nat) (path : String) : String :=
  "http://localhost:" ++ toString apiPort ++ path ++ "?"
    ++ urlencode (mainWindowQueryPairs token apiPort)

/-- Query pairs built by `PlayerWindow.__init__` (window/player.py lines
64-70): `urlencode({QUERY_TOKEN: token, QUERY_API_PORT: api_port,
**media_play.dict(exclude_none=True)})`; `mediaPlayFields` are the
stringified non-`None` fields of the `MediaPlay` record in declaration
order. -/
def playerQueryPairs (token : String) (apiPort : Nat)
    (mediaPlayFields : List (String × String)) : List (String × String) :=
  dictOfPairs ([(QUERY_TOKEN, token), (QUERY_API_PORT, toString apiPort)]
    ++ mediaPlayFields)

/-- The URL loaded by `PlayerWindow.__init__`. -/
def playerUrl (token : String) (apiPort : Nat) (mediaType : String)
    (mediaPlayFields : List (String × String)) : String :=
  "http://localhost:" ++ toString apiPort ++ "/app/player/" ++ mediaType
    ++ ".html?" ++ urlencode (playerQueryPairs token apiPort mediaPlayFields)

/-! ## The player window URL-change handler (window/player.py lines 78-84) -/

/-- The part of a `QUrl` that `PlayerWindow._url_changed` inspects. -/
structure QtUrl where
  host : String
  rest : String := ""
deriving DecidableEq, Repr

/-- Observable state of the player window relevant to `_url_changed`. -/
structure PlayerState where
  logs : Nat := 0
  windowClosed : Bool := false
  exitCode : Option Int := none
deriving DecidableEq, Repr

/-- Handler `PlayerWindow._url_changed`: always logs; when the new URL's host is
exactly `"close.window"` it closes the window and calls `sys.exit(0)`. -/
def urlChangedHandler (s : PlayerState) (url : QtUrl) : PlayerState :=
  let s1 := {s with logs := s.logs + 1}
  if url.host == "close.window" then
    {s1 with windowClosed := true, exitCode := some 0}
  else s1

/-! ## Shared data model update (`Application._handle_module`, lines 264-272) -/

/-- The `ModulesData` record together with the trace of
`SystemTray.update_tray_data` calls; `setattr(self._data, module_name,
module)` is modelled as a by-name map update, and each tray notification
records the data snapshot passed to it. -/
structure GuiData (α : Type) where
  modules : String → Option α
  trayUpdates : List (String → Option α)

/-- The `ModulesData()` value at startup: every module field is `None`, no tray
notification has happened. -/
def emptyGuiData (α : Type) : GuiData α :=
  ⟨fun _ => none, []⟩

/-- Method `Application._handle_module`: `setattr(self._data, module_name, module)`
then `self._system_tray.update_tray_data(self._data)`. -/
def handleModule {α : Type} (s : GuiData α) (moduleName : String)
    (payload : α) : GuiData α :=
  let d := fun m => if m == moduleName then some payload else s.modules m
  {modules := d, trayUpdates := s.trayUpdates ++ [d]}

/-! ## The listener lifecycle (`Application`, __init__.py lines 215-358)

`AppState` carries the fields of `Application` the lifecycle code reads and
writes, plus bookkeeping that makes the task history observable: every
listener task ever created gets a fresh numeric id (recorded in `started`),
and `cancelled` records every id on which `.cancel()` was called. -/

/-- The exception classes of the taxonomy raised by the connector calls:
`AuthenticationException`, `ConnectionErrorException`,
`ConnectionClosedException`, `ConnectionResetError`, and
`asyncio.TimeoutError`. -/
inductive WSErr
  | authentication
  | connectionError
  | connectionClosed
  | connectionReset
  | timeout
deriving DecidableEq, Repr

/-- The mutable `Application` state the lifecycle methods touch. -/
structure AppState where
  /-- `self._websocket_listen_task` (`None` or the id of the task). -/
  listenTask : Option Nat := none
  /-- Fresh id for the next created task. -/
  nextTaskId : Nat := 0
  /-- Ids of all listener tasks ever created, in creation order. -/
  started : List Nat := []
  /-- Ids on which `.cancel()` has been called. -/
  cancelled : List Nat := []
  /-- `self._websocket_client.connected`: the socket is open. -/
  connected : Bool := false
  /-- The event loop has been stopped and closed (`_exit_application`). -/
  loopClosed : Bool := false
  /-- Trace of `get_data` requests: each entry is the module list asked for. -/
  dataRequests : List (List String) := []
  /-- Number of `exit_backend()` requests attempted. -/
  backendExitRequests : Nat := 0
  /-- `self._system_tray.hide()` has run. -/
  trayHidden : Bool := false
  /-- `sys.exit(code)` has run with this code. -/
  exitedWith : Option Int := none
  /-- `self._system_tray` exists (only the `main` command creates it). -/
  hasTray : Bool := true
deriving DecidableEq, Repr

/-- The `Application` state right after `__init__` for the `main` command. -/
def initialState : AppState := {}

/-- The cancel-and-clear idiom `if self._websocket_listen_task:
self._websocket_listen_task.cancel(); self._websocket_listen_task = None`
(appears in `_setup_listener`, `_listen_for_data` and each `except` arm of
`_setup_websocket`). -/
def cancelHandle (s : AppState) : AppState :=
  match s.listenTask with
  | some id => {s with cancelled := id :: s.cancelled, listenTask := none}
  | none => s

/-- Method `Application._setup_listener` (lines 291-306): cancel and clear any
existing task, then create the new listener task and store its handle. -/
def setupListener (s : AppState) : AppState :=
  let s1 := cancelHandle s
  {s1 with
    listenTask := some s1.nextTaskId,
    started := s1.started ++ [s1.nextTaskId],
    nextTaskId := s1.nextTaskId + 1}

/-- How the `await self._websocket_client.listen(...)` call in
`_listen_for_data` ends: normal return, `asyncio.CancelledError`, or one of
the three caught connection errors. -/
inductive ListenOutcome
  | normal
  | cancelledSignal
  | connErr
  | connClosed
  | connReset
deriving DecidableEq, Repr

/-- Method `Application._listen_for_data` (lines 274-289): every listed outcome is
caught (the handlers only log), after which the task cancels and clears its
own handle. No exception escapes and nothing reconnects or retries. -/
def listenForData (s : AppState) (_o : ListenOutcome) : AppState :=
  cancelHandle s

/-- The environment of one `_setup_websocket` run: how long the `connect`
await takes, whether it raises, how long the whole guarded block takes, and
whether `get_data` or the wait loop raises.  `asyncio.timeout(10)` (line
318) converts an overrun of either duration into `asyncio.TimeoutError` at
the corresponding await point. -/
structure WSEnv where
  connectSecs : Nat := 0
  connectError : Option WSErr := none
  totalSecs : Nat := 0
  postError : Option WSErr := none
deriving DecidableEq, Repr

/-- Modelled from the spec: `DataEnum.SYSTEM.value` lives in the external
`systembridgemodels.modules`; the spec names the awaited module
`"system"`. -/
def SYSTEM_MODULE : String := "system"

/-- The body of the `try` block of `_setup_websocket` (lines 317-340).
An `error (e, t)` value is the exception `e` raised while the mutable state
was `t`; an `ok t` value is normal completion. -/
def setupWebsocketBody (s : AppState) (listen : Bool) (env : WSEnv) :
    Except (WSErr × AppState) AppState :=
  -- `await self._websocket_client.connect()` under `asyncio.timeout(10)`
  if env.connectSecs > 10 then .error (.timeout, s)
  else
    match env.connectError with
    | some e => .error (e, s)
    | none =>
      let s1 := {s with connected := true}
      -- `if not listen: return`
      if !listen then .ok s1
      else
        -- `_setup_listener` run via the executor
        let s2 := setupListener s1
        -- `await self._websocket_client.get_data(GetData(modules=[DataEnum.SYSTEM.value]))`
        let s3 := {s2 with dataRequests := s2.dataRequests ++ [[SYSTEM_MODULE]]}
        match env.postError with
        | some e => .error (e, s3)
        | none =>
          -- the 10 s budget also covers `get_data` and the wait loop
          if env.totalSecs > 10 then .error (.timeout, s3)
          else .ok s3

/-- The exception raised by a run of the `try` body, if any. -/
def raisedErr : Except (WSErr × AppState) AppState → Option WSErr
  | .error (e, _) => some e
  | .ok _ => none

/-- The exception classes the three `except` arms of `_setup_websocket`
catch (lines 341, 347, 353): together they cover the whole taxonomy. -/
def wsCaught : WSErr → Bool
  | .authentication => true
  | .connectionError => true
  | .connectionClosed => true
  | .connectionReset => true
  | .timeout => true

/-- Method `Application._setup_websocket` (lines 308-358): run the body; every
caught exception is logged and the listener handle is cancelled and
cleared.  The second component is the exception propagated to the caller,
if any. -/
def setupWebsocket (s : AppState) (listen : Bool) (env : WSEnv) :
    AppState × Option WSErr :=
  match setupWebsocketBody s listen env with
  | .ok t => (t, none)
  | .error (e, t) => if wsCaught e then (cancelHandle t, none) else (t, some e)

/-- Exceptions of `_exit_application` that are not in the caught network
taxonomy: `RuntimeError` from `run_until_complete` on a closed event loop,
and `AttributeError` from `self._system_tray.hide()` when no tray exists. -/
inductive RTErr
  | runtimeError
  | attributeError
deriving DecidableEq, Repr

/-- Environment of one `_exit_application` run: the `WSEnv` for the
reconnect attempt, and whether `exit_backend()` or `close()` raises. -/
structure ExitEnv where
  wsEnv : WSEnv := {}
  exitBackendError : Option WSErr := none
  closeError : Option WSErr := none
deriving DecidableEq, Repr

/-- The first `try` block of `_exit_application` (lines 224-245): reconnect
if needed, request backend exit, close the socket.  The four network
exception classes are caught (lines 237-242) and only logged — but note an
exception from `exit_backend()` skips the `close()` call.  A `RuntimeError`
from calling `run_until_complete` on a closed loop is **not** in the caught
tuple and propagates. -/
def exitTeardown (s : AppState) (env : ExitEnv) : Except RTErr AppState :=
  if s.loopClosed then .error .runtimeError
  else
    -- `if not self._websocket_client.connected: run_until_complete(_setup_websocket(listen=False))`
    let s1 := if !s.connected then (setupWebsocket s false env.wsEnv).1 else s
    -- `run_until_complete(self._websocket_client.exit_backend())`
    let s2 := {s1 with backendExitRequests := s1.backendExitRequests + 1}
    match env.exitBackendError with
    | some _ => .ok s2   -- caught and logged; `close()` is skipped
    | none =>
      -- `run_until_complete(self._websocket_client.close())`
      let s3 := {s2 with connected := false}
      match env.closeError with
      | some _ => .ok s3 -- caught and logged
      | none => .ok s3

/-- The second `try` block of `_exit_application` (lines 247-257): if a
listener task exists, cancel and clear it, then stop and close the event
loop. -/
def exitSecondTry (s : AppState) : AppState :=
  if s.listenTask.isSome then
    let t := cancelHandle s
    {t with loopClosed := true}
  else s

/-- The tail of `_exit_application` (lines 259-262):
`self._system_tray.hide(); self._application.exit(code); sys.exit(code)`.
In the non-`main` commands `self._system_tray` was never assigned, so the
attribute access raises `AttributeError` and the exits are not reached. -/
def exitFinish (s : AppState) (code : Int) : AppState × Option RTErr :=
  if !s.hasTray then (s, some .attributeError)
  else ({s with trayHidden := true, exitedWith := some code}, none)

/-- Method `Application._exit_application` (lines 215-262).  For code 0: run the
teardown `try`, then the second `try`, then hide the tray and exit.  For a
non-zero code both `try` blocks are skipped.  The second component is an
exception that propagates out of the method, if any. -/
def exitApplication (s : AppState) (code : Int) (env : ExitEnv) :
    AppState × Option RTErr :=
  if code == 0 then
    match exitTeardown s env with
    | .error e => (s, some e)  -- uncaught: propagates before any mutation
    | .ok s1 => exitFinish (exitSecondTry s1) code
  else exitFinish s code

/-- The operations a run of the application can interleave on the lifecycle
state. -/
inductive LifecycleOp
  | startListen
  | wsSetup (listen : Bool) (env : WSEnv)
  | listenEnds (o : ListenOutcome)
  | appExit (code : Int) (env : ExitEnv)

/-- One lifecycle operation applied to the state. -/
def stepOp (s : AppState) (op : LifecycleOp) : AppState :=
  match op with
  | .startListen => setupListener s
  | .wsSetup l env => (setupWebsocket s l env).1
  | .listenEnds o => listenForData s o
  | .appExit c env => (exitApplication s c env).1

/-- A sequence of lifecycle operations applied in order. -/
def runOps (s : AppState) (ops : List LifecycleOp) : AppState :=
  ops.foldl stepOp s

/-- The listener tasks created and never cancelled: the receive loops still
active. -/
def activeListeners (s : AppState) : List Nat :=
  s.started.filter (fun i => !(s.cancelled.contains i))

/-- The lifecycle invariant: the still-active listener tasks are exactly the
one the handle points at (so there is at most one), and all recorded task
ids are below the fresh-id counter. -/
def Inv (s : AppState) : Prop :=
  activeListeners s = s.listenTask.toList
  ∧ (∀ i ∈ s.started, i < s.nextTaskId)
  ∧ (∀ i ∈ s.cancelled, i < s.nextTaskId)

/-! ## The initial-data wait loop (lines 337-340)

`while self._data.system is None: log; await asyncio.sleep(1)` — the loop
checks the shared model, and after each failed check sleeps exactly one
second, so the check at index `k` happens `k` seconds after the loop
started.  `sysAt k` is the value of `self._data.system` at the `k`-th
check; the returned value is the index of the first successful check (and
hence the number of one-second sleeps performed). -/
def waitForSystem {α : Type} (sysAt : Nat → Option α) :
    Nat → Nat → Option Nat
  | 0, _ => none
  | fuel + 1, k =>
    match sysAt k with
    | some _ => some k
    | none => waitForSystem sysAt fuel (k + 1)

/-! ## Startup commands (`__main__.py`, `Application.__init__` lines 80-166) -/

/-- The commands the CLI dispatches to `Application.__init__`. -/
inductive GuiCommand
  | mainCmd
  | mediaPlayerAudio
  | mediaPlayerVideo
  | notifyCmd
deriving DecidableEq, Repr

/-- What a run of `Application.__init__` visibly did. -/
structure InitResult where
  loggedError : Bool := false
  dialogSecs : Option Nat := none
  windowShown : Bool := false
  exitStatus : Option Nat := none
  uncaught : Bool := false
deriving DecidableEq, Repr

/-- The `Application` state in the non-`main` commands: no system tray was
created. -/
def noTrayState : AppState := {hasTray := false}

/-- Method `Application._startup_error` (lines 200-213): show
`TimedMessageBox(5, ...)`, then `_exit_application(1)`.  That call reaches
`self._system_tray.hide()` with no tray in existence, so it dies on an
unhandled `AttributeError` and the interpreter exits with status 1. -/
def startupErrorResult : InitResult :=
  let r := exitApplication noTrayState 1 {}
  {loggedError := true, dialogSecs := some 5, windowShown := false,
   exitStatus := if r.2.isSome then some 1 else r.1.exitedWith.map Int.toNat,
   uncaught := r.2.isSome}

/-- Method `Application.__init__` (lines 80-166) restricted to its startup
decision: for the media-player and notification commands a missing payload
goes to `_startup_error`; a payload that does not deserialize into the
expected record shape (`MediaPlay(**data)` / `Notification(**data)`,
modelled by the predicate `parseOk`) raises `TypeError` before any window
is constructed, which nobody catches; otherwise the window is created and
shown. -/
def applicationInit {D : Type} (parseOk : D → Bool) (cmd : GuiCommand)
    (data : Option D) : InitResult :=
  match cmd with
  | .mainCmd => {windowShown := true}
  | .mediaPlayerAudio | .mediaPlayerVideo | .notifyCmd =>
    match data with
    | none => startupErrorResult
    | some d =>
      if parseOk d then {windowShown := true}
      else {exitStatus := some 1, uncaught := true}

/-! ## Helper lemmas -/

theorem not_mem_of_lt (c : List Nat) (n : Nat)
    (h : ∀ i ∈ c, i < n) : n ∉ c :=
  fun hmem => absurd (h n hmem) (Nat.lt_irrefl n)

theorem cancelHandle_listenTask (s : AppState) :
    (cancelHandle s).listenTask = none := by
  unfold cancelHandle
  split <;> simp_all

/-- The helper `cancelHandle` touches only `cancelled` and `listenTask`. -/
theorem cancelHandle_frame (s : AppState) :
    (cancelHandle s).started = s.started
    ∧ (cancelHandle s).nextTaskId = s.nextTaskId
    ∧ (cancelHandle s).connected = s.connected
    ∧ (cancelHandle s).loopClosed = s.loopClosed
    ∧ (cancelHandle s).dataRequests = s.dataRequests
    ∧ (cancelHandle s).backendExitRequests = s.backendExitRequests
    ∧ (cancelHandle s).trayHidden = s.trayHidden
    ∧ (cancelHandle s).exitedWith = s.exitedWith
    ∧ (cancelHandle s).hasTray = s.hasTray := by
  unfold cancelHandle
  split <;> simp_all

theorem inv_of_same_core (s t : AppState) (h : Inv s)
    (hst : t.started = s.started) (hca : t.cancelled = s.cancelled)
    (hlt : t.listenTask = s.listenTask) (hnt : t.nextTaskId = s.nextTaskId) :
    Inv t := by
  obtain ⟨h1, h2, h3⟩ := h
  refine ⟨?_, ?_, ?_⟩
  · simpa [activeListeners, hst, hca, hlt] using h1
  · simpa [hst, hnt] using h2
  · simpa [hca, hnt] using h3

theorem inv_cancelHandle (s : AppState) (h : Inv s) : Inv (cancelHandle s) := by
  obtain ⟨h1, h2, h3⟩ := h
  unfold cancelHandle
  split
  · rename_i id heq
    have hact : activeListeners s = [id] := by
      simp [h1, heq]
    have hmem : id ∈ activeListeners s := by
      rw [hact]
      exact List.mem_singleton_self id
    have hid : id ∈ s.started := List.mem_of_mem_filter hmem
    refine ⟨?_, ?_, ?_⟩
    · show s.started.filter (fun i => !((id :: s.cancelled).contains i)) = _
      have key : s.started.filter (fun i => !((id :: s.cancelled).contains i))
          = (s.started.filter (fun i => !(s.cancelled.contains i))).filter
              (fun i => !(i == id)) := by
        rw [List.filter_filter]
        refine List.filter_congr ?_
        intro a _
        simp [List.contains_cons, Bool.not_or, Bool.and_comm,
          Bool.beq_eq_decide_eq]
      rw [key]
      rw [show s.started.filter (fun i => !(s.cancelled.contains i)) = [id]
        from hact]
      simp
    · simpa using h2
    · intro i hi
      rcases List.mem_cons.mp hi with h | h
      · exact h ▸ h2 id hid
      · exact h3 i h
  · exact ⟨h1, h2, h3⟩

theorem inv_setupListener (s : AppState) (h : Inv s) : Inv (setupListener s) := by
  have h' := inv_cancelHandle s h
  obtain ⟨h1, h2, h3⟩ := h'
  have hnone : (cancelHandle s).listenTask = none := cancelHandle_listenTask s
  rw [hnone] at h1
  unfold setupListener
  refine ⟨?_, ?_, ?_⟩
  · show ((cancelHandle s).started ++ [(cancelHandle s).nextTaskId]).filter
        (fun i => !((cancelHandle s).cancelled.contains i)) = _
    rw [List.filter_append]
    have hfresh : (cancelHandle s).nextTaskId ∉ (cancelHandle s).cancelled :=
      not_mem_of_lt _ _ h3
    have hactive : (cancelHandle s).started.filter
        (fun i => !((cancelHandle s).cancelled.contains i)) = [] := by
      simpa [activeListeners] using h1
    rw [hactive]
    simp [hfresh]
  · intro i hi
    simp only [List.mem_append, List.mem_singleton] at hi
    rcases hi with h | h
    · exact Nat.lt_succ_of_lt (h2 i h)
    · simp [h]
  · intro i hi
    exact Nat.lt_succ_of_lt (h3 i hi)

theorem inv_setupWebsocketBody (s : AppState) (l : Bool) (env : WSEnv)
    (h : Inv s) :
    (∀ t, setupWebsocketBody s l env = .ok t → Inv t)
    ∧ (∀ e t, setupWebsocketBody s l env = .error (e, t) → Inv t) := by
  have hconn : Inv {s with connected := true} :=
    inv_of_same_core s _ h rfl rfl rfl rfl
  have hs3 : Inv {setupListener {s with connected := true} with
      dataRequests := (setupListener {s with connected := true}).dataRequests
        ++ [[SYSTEM_MODULE]]} :=
    inv_of_same_core _ _ (inv_setupListener _ hconn) rfl rfl rfl rfl
  constructor
  · intro t ht
    unfold setupWebsocketBody at ht
    split at ht
    · exact absurd ht (by simp)
    · split at ht
      · exact absurd ht (by simp)
      · split at ht
        · cases ht
          exact hconn
        · split at ht
          · exact absurd ht (by simp)
          · split at ht
            · exact absurd ht (by simp)
            · cases ht
              exact hs3
  · intro e t ht
    unfold setupWebsocketBody at ht
    split at ht
    · cases ht
      exact h
    · split at ht
      · cases ht
        exact h
      · split at ht
        · exact absurd ht (by simp)
        · split at ht
          · cases ht
            exact hs3
          · split at ht
            · cases ht
              exact hs3
            · exact absurd ht (by simp)

theorem inv_setupWebsocket (s : AppState) (l : Bool) (env : WSEnv)
    (h : Inv s) : Inv (setupWebsocket s l env).1 := by
  have hb := inv_setupWebsocketBody s l env h
  unfold setupWebsocket
  split
  · rename_i t ht
    exact hb.1 t ht
  · rename_i e t ht
    split
    · exact inv_cancelHandle t (hb.2 e t ht)
    · exact hb.2 e t ht

theorem inv_exitTeardown (s : AppState) (env : ExitEnv) (h : Inv s) :
    ∀ t, exitTeardown s env = .ok t → Inv t := by
  intro t ht
  unfold exitTeardown at ht
  split at ht
  · exact absurd ht (by simp)
  · have h1 : Inv (if !s.connected then (setupWebsocket s false env.wsEnv).1
        else s) := by
      split
      · exact inv_setupWebsocket s false env.wsEnv h
      · exact h
    set s1 := if !s.connected then (setupWebsocket s false env.wsEnv).1 else s
      with hs1
    have h2 : Inv {s1 with backendExitRequests := s1.backendExitRequests + 1} :=
      inv_of_same_core s1 _ h1 rfl rfl rfl rfl
    split at ht
    · cases ht
      exact h2
    · split at ht
      · cases ht
        exact inv_of_same_core _ _ h2 rfl rfl rfl rfl
      · cases ht
        exact inv_of_same_core _ _ h2 rfl rfl rfl rfl

theorem inv_exitSecondTry (s : AppState) (h : Inv s) :
    Inv (exitSecondTry s) := by
  unfold exitSecondTry
  split
  · exact inv_of_same_core _ _ (inv_cancelHandle s h) rfl rfl rfl rfl
  · exact h

theorem inv_exitFinish (s : AppState) (code : Int) (h : Inv s) :
    Inv (exitFinish s code).1 := by
  unfold exitFinish
  split
  · exact h
  · exact inv_of_same_core _ _ h rfl rfl rfl rfl

theorem inv_exitApplication (s : AppState) (code : Int) (env : ExitEnv)
    (h : Inv s) : Inv (exitApplication s code env).1 := by
  unfold exitApplication
  split
  · split
    · exact h
    · rename_i s1 ht
      exact inv_exitFinish _ code
        (inv_exitSecondTry s1 (inv_exitTeardown s env h s1 ht))
  · exact inv_exitFinish s code h

theorem inv_stepOp (s : AppState) (op : LifecycleOp) (h : Inv s) :
    Inv (stepOp s op) := by
  cases op with
  | startListen => exact inv_setupListener s h
  | wsSetup l env => exact inv_setupWebsocket s l env h
  | listenEnds o => exact inv_cancelHandle s h
  | appExit c env => exact inv_exitApplication s c env h

theorem inv_initial : Inv initialState := by
  refine ⟨rfl, ?_, ?_⟩ <;> simp [initialState]

theorem inv_runOps (ops : List LifecycleOp) (s : AppState) (h : Inv s) :
    Inv (runOps s ops) := by
  induction ops generalizing s with
  | nil => exact h
  | cons op t ih => exact ih (stepOp s op) (inv_stepOp s op h)

/-! ## Claim theorems -/

/-- Claim C3: last-write-wins update.  Applying the data-model update for
`(m, A)` and then `(m, B)` leaves the shared model holding `B` for `m`
unconditionally, and every application of `handleModule` notifies the tray
refresh callback exactly once, passing it the updated data. -/
theorem c3_last_write_wins {α : Type} (s : GuiData α) (m : String) (A B : α) :
    (handleModule (handleModule s m A) m B).modules m = some B
    ∧ (handleModule (handleModule s m A) m B).trayUpdates.length
        = s.trayUpdates.length + 2
    ∧ ∀ (t : GuiData α) (name : String) (p : α),
        (handleModule t name p).trayUpdates
          = t.trayUpdates ++ [(handleModule t name p).modules] := by
  refine ⟨?_, ?_, ?_⟩
  · simp [handleModule]
  · simp [handleModule]
  · intro t name p
    rfl

/-- Claim C10: in the player window, a URL-change event closes the window
and exits with code 0 exactly when the new URL's host is `"close.window"`;
any other URL changes nothing beyond the log. -/
theorem c10_player_close (s : PlayerState) (url : QtUrl)
    (h : s.windowClosed = false ∧ s.exitCode = none) :
    ((urlChangedHandler s url).windowClosed = true ↔ url.host = "close.window")
    ∧ ((urlChangedHandler s url).exitCode = some 0 ↔ url.host = "close.window")
    ∧ (urlChangedHandler s url).logs = s.logs + 1
    ∧ (url.host ≠ "close.window" →
        urlChangedHandler s url = {s with logs := s.logs + 1}) := by
  obtain ⟨h1, h2⟩ := h
  by_cases hh : url.host = "close.window"
  · simp [urlChangedHandler, hh]
  · have : (url.host == "close.window") = false := beq_eq_false_iff_ne.mpr hh
    simp [urlChangedHandler, this, hh, h1, h2]

theorem c10_witness :
    ((urlChangedHandler {} ⟨"close.window", ""⟩).windowClosed = true
      ↔ (⟨"close.window", ""⟩ : QtUrl).host = "close.window")
    ∧ ((urlChangedHandler {} ⟨"close.window", ""⟩).exitCode = some 0
      ↔ (⟨"close.window", ""⟩ : QtUrl).host = "close.window")
    ∧ (urlChangedHandler {} ⟨"close.window", ""⟩).logs = ({} : PlayerState).logs + 1
    ∧ ((⟨"close.window", ""⟩ : QtUrl).host ≠ "close.window" →
        urlChangedHandler {} ⟨"close.window", ""⟩
          = {({} : PlayerState) with logs := ({} : PlayerState).logs + 1}) :=
  c10_player_close {} ⟨"close.window", ""⟩ (by constructor <;> rfl)

/-- Claim C6: when the receive loop ends with `ConnectionClosed`,
`ConnectionReset` or a cancellation signal, it exits without propagating an
exception (`listenForData` is total over the caught outcomes), cancels and
clears its own handle, and neither retries nor reconnects (no new task is
created, no new data request is sent, the connection flag is untouched). -/
theorem c6_listen_termination (s : AppState) (o : ListenOutcome)
    (_ho : o = .cancelledSignal ∨ o = .connClosed ∨ o = .connReset) :
    (listenForData s o).listenTask = none
    ∧ (listenForData s o).started = s.started
    ∧ (listenForData s o).connected = s.connected
    ∧ (listenForData s o).dataRequests = s.dataRequests
    ∧ (∀ id, s.listenTask = some id →
        (listenForData s o).cancelled.contains id = true) := by
  refine ⟨cancelHandle_listenTask s, (cancelHandle_frame s).1,
    (cancelHandle_frame s).2.2.1, (cancelHandle_frame s).2.2.2.2.1, ?_⟩
  intro id hid
  show (cancelHandle s).cancelled.contains id = true
  unfold cancelHandle
  rw [hid]
  simp

theorem c6_witness :
    (listenForData (setupListener initialState) .connClosed).listenTask = none
    ∧ (listenForData (setupListener initialState) .connClosed).started
        = (setupListener initialState).started
    ∧ (listenForData (setupListener initialState) .connClosed).connected
        = (setupListener initialState).connected
    ∧ (listenForData (setupListener initialState) .connClosed).dataRequests
        = (setupListener initialState).dataRequests
    ∧ (∀ id, (setupListener initialState).listenTask = some id →
        (listenForData (setupListener initialState) .connClosed).cancelled.contains
          id = true) :=
  c6_listen_termination (setupListener initialState) .connClosed
    (Or.inr (Or.inl rfl))

/-- Claim C8: a media-player or notification command with no data payload
logs the error, shows the 5-second error dialog, and terminates the process
with a non-zero status before any window is shown; a payload that does not
deserialize into the expected record shape makes the process fail fast
(unhandled `TypeError`, status 1) before any window is shown. -/
theorem c8_missing_payload {D : Type} (parseOk : D → Bool) (cmd : GuiCommand)
    (hc : cmd = .mediaPlayerAudio ∨ cmd = .mediaPlayerVideo
      ∨ cmd = .notifyCmd) :
    applicationInit parseOk cmd none
      = {loggedError := true, dialogSecs := some 5, windowShown := false,
         exitStatus := some 1, uncaught := true}
    ∧ ∀ d : D, parseOk d = false →
        (applicationInit parseOk cmd (some d)).windowShown = false
        ∧ (applicationInit parseOk cmd (some d)).exitStatus = some 1
        ∧ (applicationInit parseOk cmd (some d)).uncaught = true := by
  have hres : startupErrorResult
      = {loggedError := true, dialogSecs := some 5, windowShown := false,
         exitStatus := some 1, uncaught := true} := by decide
  rcases hc with h | h | h <;> subst h <;>
    refine ⟨hres, ?_⟩ <;> intro d hd <;> simp [applicationInit, hd]

theorem c8_witness :
    applicationInit (fun _ : Unit => false) .notifyCmd none
      = {loggedError := true, dialogSecs := some 5, windowShown := false,
         exitStatus := some 1, uncaught := true}
    ∧ ((applicationInit (fun _ : Unit => false) .notifyCmd (some ())).windowShown
        = false
      ∧ (applicationInit (fun _ : Unit => false) .notifyCmd
          (some ())).exitStatus = some 1
      ∧ (applicationInit (fun _ : Unit => false) .notifyCmd (some ())).uncaught
        = true) :=
  ⟨(c8_missing_payload (fun _ : Unit => false) .notifyCmd
      (Or.inr (Or.inr rfl))).1,
   (c8_missing_payload (fun _ : Unit => false) .notifyCmd
      (Or.inr (Or.inr rfl))).2 () rfl⟩

/-- Claim C1: at most one receive-loop task is ever active, over any
sequence of lifecycle operations from the startup state; and starting a new
listener always first cancels the pre-existing task and replaces the
cleared handle with the fresh task. -/
theorem c1_at_most_one_listener :
    (∀ ops : List LifecycleOp,
      (activeListeners (runOps initialState ops)).length ≤ 1)
    ∧ (∀ (s : AppState) (id : Nat), Inv s → s.listenTask = some id →
        (setupListener s).cancelled.contains id = true
        ∧ (setupListener s).listenTask = some s.nextTaskId
        ∧ activeListeners (setupListener s) = [s.nextTaskId]) := by
  constructor
  · intro ops
    have h := inv_runOps ops initialState inv_initial
    rw [h.1]
    cases (runOps initialState ops).listenTask <;> simp
  · intro s id hInv hid
    have hnext : (setupListener s).listenTask = some s.nextTaskId := by
      simp [setupListener, cancelHandle, hid]
    refine ⟨?_, hnext, ?_⟩
    · show (cancelHandle s).cancelled.contains id = true
      unfold cancelHandle
      rw [hid]
      simp
    · have h' := inv_setupListener s hInv
      rw [h'.1, hnext]
      rfl

theorem c1_witness :
    (activeListeners (runOps initialState [.startListen, .startListen])).length
        ≤ 1
    ∧ ((setupListener (setupListener initialState)).cancelled.contains 0 = true
      ∧ (setupListener (setupListener initialState)).listenTask
          = some (setupListener initialState).nextTaskId
      ∧ activeListeners (setupListener (setupListener initialState))
          = [(setupListener initialState).nextTaskId]) :=
  ⟨c1_at_most_one_listener.1 [.startListen, .startListen],
   c1_at_most_one_listener.2 (setupListener initialState) 0
     (inv_setupListener initialState inv_initial) (by decide)⟩

/-- With `listen=False` (the reconnect inside `_exit_application`),
`_setup_websocket` either fails during connect — every failure is caught
and runs the cancel-and-clear arm on the unchanged state — or returns right
after setting the connection up. -/
theorem setupWebsocket_noListen (s : AppState) (env : WSEnv) :
    (setupWebsocket s false env).1 = cancelHandle s
    ∨ (setupWebsocket s false env).1 = {s with connected := true} := by
  unfold setupWebsocket setupWebsocketBody
  by_cases h1 : env.connectSecs > 10
  · simp [h1, wsCaught]
  · cases h2 : env.connectError with
    | some e =>
      simp only [h1, if_false, h2]
      cases e <;> simp [wsCaught]
    | none => simp [h1, h2]

/-- When the connect phase of `_setup_websocket` fails (timeout during
connect, or `connect` raising), the handler runs on the pre-connect
state. -/
theorem setupWebsocket_connectFail (s : AppState) (l : Bool) (env : WSEnv)
    (h : env.connectSecs > 10 ∨ env.connectError.isSome = true) :
    (setupWebsocket s l env).1 = cancelHandle s := by
  unfold setupWebsocket setupWebsocketBody
  by_cases h10 : env.connectSecs > 10
  · simp [h10, wsCaught]
  · rcases h with h | h
    · exact absurd h h10
    · cases he : env.connectError with
      | none => rw [he] at h; simp at h
      | some e =>
        simp only [h10, if_false, he]
        cases e <;> simp [wsCaught]

theorem exitSecondTry_listenTask (s : AppState) :
    (exitSecondTry s).listenTask = none := by
  unfold exitSecondTry
  split
  · show (cancelHandle s).listenTask = none
    exact cancelHandle_listenTask s
  · rename_i h
    simpa using h

theorem exitSecondTry_frame (s : AppState) :
    (exitSecondTry s).connected = s.connected
    ∧ (exitSecondTry s).backendExitRequests = s.backendExitRequests
    ∧ (exitSecondTry s).hasTray = s.hasTray
    ∧ (exitSecondTry s).exitedWith = s.exitedWith := by
  obtain ⟨-, -, hc, -, -, hb, -, he, ht⟩ := cancelHandle_frame s
  unfold exitSecondTry
  split <;> simp [hc, hb, ht, he]

theorem exitSecondTry_of_none (s : AppState) (h : s.listenTask = none) :
    exitSecondTry s = s := by
  unfold exitSecondTry
  rw [h]
  rfl

theorem exitSecondTry_cancels (t : AppState) (id : Nat)
    (h : t.listenTask = some id) :
    (exitSecondTry t).cancelled.contains id = true := by
  unfold exitSecondTry cancelHandle
  rw [h]
  simp

theorem exitSecondTry_cancelled_contains (t : AppState) (id : Nat)
    (h : t.cancelled.contains id = true) :
    (exitSecondTry t).cancelled.contains id = true := by
  unfold exitSecondTry cancelHandle
  split
  · split <;> simp_all
  · exact h

theorem exitFinish_spec (s : AppState) (code : Int) (h : s.hasTray = true) :
    exitFinish s code
      = ({s with trayHidden := true, exitedWith := some code}, none) := by
  simp [exitFinish, h]

/-- What one `_exit_application(0)` run does when the event loop is still
open and the tray exists: it returns without raising, the listener handle
ends cleared (cancelling any prior task), exactly one backend-exit request
is attempted, the socket ends closed when that request does not raise, the
loop stays open when no listener task existed, and the exit code 0 is
recorded. -/
theorem exitApp_zero_spec (s : AppState) (env : ExitEnv)
    (hlc : s.loopClosed = false) (htr : s.hasTray = true) :
    (exitApplication s 0 env).2 = none
    ∧ (exitApplication s 0 env).1.listenTask = none
    ∧ (exitApplication s 0 env).1.backendExitRequests
        = s.backendExitRequests + 1
    ∧ (∀ id, s.listenTask = some id →
        (exitApplication s 0 env).1.cancelled.contains id = true)
    ∧ (env.exitBackendError = none →
        (exitApplication s 0 env).1.connected = false)
    ∧ (s.listenTask = none → (exitApplication s 0 env).1.loopClosed = false)
    ∧ (exitApplication s 0 env).1.hasTray = true
    ∧ (exitApplication s 0 env).1.exitedWith = some 0 := by
  have hw : ∃ w : AppState,
      (if !s.connected then (setupWebsocket s false env.wsEnv).1 else s) = w
      ∧ w.backendExitRequests = s.backendExitRequests
      ∧ w.loopClosed = false ∧ w.hasTray = true
      ∧ (w.listenTask = s.listenTask ∨
          (w.listenTask = none ∧ ∀ id, s.listenTask = some id →
            w.cancelled.contains id = true)) := by
    by_cases hc : s.connected
    · refine ⟨s, by simp [hc], rfl, hlc, htr, Or.inl rfl⟩
    · rcases setupWebsocket_noListen s env.wsEnv with hws | hws
      · refine ⟨cancelHandle s, by simp [hc, hws],
          (cancelHandle_frame s).2.2.2.2.2.1, ?_, ?_, ?_⟩
        · rw [(cancelHandle_frame s).2.2.2.1]
          exact hlc
        · rw [(cancelHandle_frame s).2.2.2.2.2.2.2.2]
          exact htr
        · refine Or.inr ⟨cancelHandle_listenTask s, ?_⟩
          intro id hid
          unfold cancelHandle
          rw [hid]
          simp
      · exact ⟨{s with connected := true}, by simp [hc, hws], rfl, hlc, htr,
          Or.inl rfl⟩
  obtain ⟨w, hweq, hwb, hwl, hwt, hwlt⟩ := hw
  have hts : ∃ t : AppState, exitTeardown s env = .ok t
      ∧ t.backendExitRequests = s.backendExitRequests + 1
      ∧ t.loopClosed = false ∧ t.hasTray = true
      ∧ t.listenTask = w.listenTask ∧ t.cancelled = w.cancelled
      ∧ (env.exitBackendError = none → t.connected = false) := by
    unfold exitTeardown
    simp only [hlc, Bool.false_eq_true, if_false]
    rw [hweq]
    cases henv : env.exitBackendError with
    | some e =>
      refine ⟨{w with backendExitRequests := w.backendExitRequests + 1},
        rfl, by simp [hwb], hwl, hwt, rfl, rfl, ?_⟩
      intro hcontra
      simp at hcontra
    | none =>
      cases hce : env.closeError with
      | some e2 =>
        exact ⟨{{w with backendExitRequests := w.backendExitRequests + 1} with
          connected := false}, rfl, by simp [hwb], hwl, hwt, rfl, rfl,
          fun _ => rfl⟩
      | none =>
        exact ⟨{{w with backendExitRequests := w.backendExitRequests + 1} with
          connected := false}, rfl, by simp [hwb], hwl, hwt, rfl, rfl,
          fun _ => rfl⟩
  obtain ⟨t, hteq, htb, htl, htt, htlt, htca, htco⟩ := hts
  have happ : exitApplication s 0 env = exitFinish (exitSecondTry t) 0 := by
    unfold exitApplication
    rw [hteq]
    rfl
  have hxt : (exitSecondTry t).hasTray = true := by
    rw [(exitSecondTry_frame t).2.2.1]
    exact htt
  have hfin : exitFinish (exitSecondTry t) 0
      = ({exitSecondTry t with trayHidden := true, exitedWith := some 0},
         none) :=
    exitFinish_spec (exitSecondTry t) 0 hxt
  rw [happ, hfin]
  refine ⟨rfl, ?_, ?_, ?_, ?_, ?_, ?_, rfl⟩
  · show (exitSecondTry t).listenTask = none
    exact exitSecondTry_listenTask t
  · show (exitSecondTry t).backendExitRequests = s.backendExitRequests + 1
    rw [(exitSecondTry_frame t).2.1]
    exact htb
  · intro id hid
    show (exitSecondTry t).cancelled.contains id = true
    rcases hwlt with hl | ⟨hn, hcanc⟩
    · exact exitSecondTry_cancels t id (by rw [htlt, hl, hid])
    · exact exitSecondTry_cancelled_contains t id (by rw [htca]; exact hcanc id hid)
  · intro hbe
    show (exitSecondTry t).connected = false
    rw [(exitSecondTry_frame t).1]
    exact htco hbe
  · intro hnone
    show (exitSecondTry t).loopClosed = false
    have htn : t.listenTask = none := by
      rcases hwlt with hl | ⟨hn, -⟩
      · rw [htlt, hl, hnone]
      · rw [htlt, hn]
    rw [exitSecondTry_of_none t htn]
    exact htl
  · show (exitSecondTry t).hasTray = true
    exact hxt

/-- Claim C2 as stated is false on the code: a `TimeoutError` that fires
after `connect` has succeeded (here: the guarded block overruns the
10-second budget while waiting for initial data) is caught, cancels the
listener handle, and propagates nothing — but the socket opened by
`connect` is never closed by the `except` arms, so the system is **not**
left disconnected. -/
theorem c2_counterexample :
    raisedErr (setupWebsocketBody initialState true {totalSecs := 11})
      = some .timeout
    ∧ (setupWebsocket initialState true {totalSecs := 11}).2 = none
    ∧ (setupWebsocket initialState true {totalSecs := 11}).1.listenTask = none
    ∧ (setupWebsocket initialState true {totalSecs := 11}).1.connected = true := by
  decide

/-- Claim C4 as stated is false on the code: after a normal startup (an
active listener task), the first `_exit_application(0)` succeeds but stops
and closes the event loop; a second call then hits `run_until_complete` on
a closed loop, whose `RuntimeError` is not in the caught exception tuple
and propagates out of the shutdown operation. -/
theorem c4_counterexample :
    (exitApplication (setupWebsocket initialState true {}).1 0 {}).2 = none
    ∧ (exitApplication (setupWebsocket initialState true {}).1 0 {}).1.loopClosed
        = true
    ∧ (exitApplication
        (exitApplication (setupWebsocket initialState true {}).1 0 {}).1
        0 {}).2 = some .runtimeError := by
  decide

/-- Claim C4 (amended): during shutdown the network errors from the
best-effort backend-exit request are swallowed (nothing propagates), the
active receive loop (if any) is cancelled and its handle cleared, and the
socket is closed whenever the backend-exit request does not raise (when it
does raise, the `close()` call is skipped).  Shutdown is idempotent only in
the no-listener case: with no active listener task the first call leaves
the event loop open, and calling shutdown twice in a row produces no error
and leaves the system disconnected with no handle both times.  (When a
listener task is active, the first call closes the event loop and a second
call would fail with `RuntimeError` — see the counterexample.) -/
theorem c4_amended (s : AppState) (env : ExitEnv)
    (hlc : s.loopClosed = false) (htr : s.hasTray = true) :
    ((exitApplication s 0 env).2 = none
      ∧ (exitApplication s 0 env).1.listenTask = none
      ∧ (∀ id, s.listenTask = some id →
          (exitApplication s 0 env).1.cancelled.contains id = true))
    ∧ (env.exitBackendError = none →
        (exitApplication s 0 env).1.connected = false)
    ∧ (s.listenTask = none → env.exitBackendError = none →
        (exitApplication s 0 env).2 = none
        ∧ (exitApplication s 0 env).1.connected = false
        ∧ (exitApplication s 0 env).1.listenTask = none
        ∧ (exitApplication (exitApplication s 0 env).1 0 env).2 = none
        ∧ (exitApplication (exitApplication s 0 env).1 0 env).1.connected
            = false
        ∧ (exitApplication (exitApplication s 0 env).1 0 env).1.listenTask
            = none) := by
  obtain ⟨ha, hb, hc, hd, he, hf, hg, -⟩ := exitApp_zero_spec s env hlc htr
  refine ⟨⟨ha, hb, hd⟩, he, ?_⟩
  intro hnone hbe
  obtain ⟨ha2, hb2, -, -, he2, -, -, -⟩ :=
    exitApp_zero_spec (exitApplication s 0 env).1 env (hf hnone) hg
  exact ⟨ha, he hbe, hb, ha2, he2 hbe, hb2⟩

theorem c4_witness :
    (((exitApplication initialState 0 {}).2 = none
      ∧ (exitApplication initialState 0 {}).1.listenTask = none
      ∧ (∀ id, (initialState : AppState).listenTask = some id →
          (exitApplication initialState 0 {}).1.cancelled.contains id = true))
    ∧ (({} : ExitEnv).exitBackendError = none →
        (exitApplication initialState 0 {}).1.connected = false)
    ∧ ((initialState : AppState).listenTask = none →
        ({} : ExitEnv).exitBackendError = none →
        (exitApplication initialState 0 {}).2 = none
        ∧ (exitApplication initialState 0 {}).1.connected = false
        ∧ (exitApplication initialState 0 {}).1.listenTask = none
        ∧ (exitApplication (exitApplication initialState 0 {}).1 0 {}).2 = none
        ∧ (exitApplication
            (exitApplication initialState 0 {}).1 0 {}).1.connected = false
        ∧ (exitApplication
            (exitApplication initialState 0 {}).1 0 {}).1.listenTask
            = none)) :=
  c4_amended initialState {} (by decide) (by decide)

/-- Claim C9: a non-zero exit code skips the whole teardown — the state is
unchanged except that the tray is hidden and the process exits with that
code: no backend-exit request is sent, the socket is not closed, the
listener task is not cancelled.  For code zero the full teardown runs:
one backend-exit request, socket closed (when the request does not raise),
listener handle cleared. -/
theorem c9_nonzero_exit_skips_teardown (s : AppState) (code : Int)
    (env : ExitEnv) (hcode : code ≠ 0) (htr : s.hasTray = true) :
    exitApplication s code env
      = ({s with trayHidden := true, exitedWith := some code}, none)
    ∧ (s.loopClosed = false →
        (exitApplication s 0 env).1.backendExitRequests
            = s.backendExitRequests + 1
        ∧ (env.exitBackendError = none →
            (exitApplication s 0 env).1.connected = false)
        ∧ (exitApplication s 0 env).1.listenTask = none) := by
  constructor
  · have hc : (code == 0) = false := beq_eq_false_iff_ne.mpr hcode
    simp [exitApplication, exitFinish, hc, htr]
  · intro hlc
    obtain ⟨-, hb, hreq, -, hconn, -, -, -⟩ := exitApp_zero_spec s env hlc htr
    exact ⟨hreq, hconn, hb⟩

theorem c9_witness :
    (exitApplication initialState 3 {}
      = ({initialState with trayHidden := true, exitedWith := some 3}, none))
    ∧ ((initialState : AppState).loopClosed = false →
        (exitApplication initialState 0 {}).1.backendExitRequests
            = (initialState : AppState).backendExitRequests + 1
        ∧ (({} : ExitEnv).exitBackendError = none →
            (exitApplication initialState 0 {}).1.connected = false)
        ∧ (exitApplication initialState 0 {}).1.listenTask = none) :=
  c9_nonzero_exit_skips_teardown initialState 3 {} (by decide) (by decide)

/-- Claim C2 (amended): `_setup_websocket` never propagates an exception;
an overrun of the 10-second budget fails the run with `TimeoutError`; every
failure of the body cancels any listener handle that exists at that point
and leaves the handle cleared; and a failure of the connect phase leaves
the system disconnected.  (A failure **after** a successful connect leaves
the socket connected — see the counterexample — which is where the original
claim's "leaves the system disconnected" breaks.) -/
theorem c2_amended (s : AppState) (listen : Bool) (env : WSEnv) :
    (setupWebsocket s listen env).2 = none
    ∧ (env.connectSecs > 10 →
        raisedErr (setupWebsocketBody s listen env) = some .timeout)
    ∧ (∀ e t, setupWebsocketBody s listen env = .error (e, t) →
        (setupWebsocket s listen env).1.listenTask = none
        ∧ (∀ id, t.listenTask = some id →
            (setupWebsocket s listen env).1.cancelled.contains id = true))
    ∧ (s.connected = false →
        (env.connectSecs > 10 ∨ env.connectError.isSome = true) →
        (setupWebsocket s listen env).1.connected = false) := by
  refine ⟨?_, ?_, ?_, ?_⟩
  · unfold setupWebsocket
    split
    · rfl
    · rename_i e t ht
      cases e <;> simp [wsCaught]
  · intro h10
    unfold setupWebsocketBody
    simp [h10, raisedErr]
  · intro e t ht
    have hw : setupWebsocket s listen env = (cancelHandle t, none) := by
      unfold setupWebsocket
      rw [ht]
      cases e <;> simp [wsCaught]
    rw [hw]
    refine ⟨cancelHandle_listenTask t, ?_⟩
    intro id hid
    show (cancelHandle t).cancelled.contains id = true
    unfold cancelHandle
    rw [hid]
    simp
  · intro hconn hfail
    rw [setupWebsocket_connectFail s listen env hfail,
      (cancelHandle_frame s).2.2.1]
    exact hconn

theorem c2_witness :
    (setupWebsocket initialState true {connectSecs := 11}).2 = none
    ∧ raisedErr (setupWebsocketBody initialState true {connectSecs := 11})
        = some .timeout
    ∧ ((setupWebsocket initialState true {connectSecs := 11}).1.listenTask
        = none
      ∧ (∀ id, (initialState : AppState).listenTask = some id →
          (setupWebsocket initialState true
            {connectSecs := 11}).1.cancelled.contains id = true))
    ∧ (setupWebsocket initialState true {connectSecs := 11}).1.connected
        = false := by
  have h := c2_amended initialState true {connectSecs := 11}
  exact ⟨h.1, h.2.1 (by decide), h.2.2.1 .timeout initialState rfl,
    h.2.2.2 rfl (Or.inl (by decide))⟩

theorem setupListener_dataRequests (s : AppState) :
    (setupListener s).dataRequests = s.dataRequests := by
  unfold setupListener
  show (cancelHandle s).dataRequests = s.dataRequests
  exact (cancelHandle_frame s).2.2.2.2.1

theorem waitForSystem_exact {α : Type} (sysAt : Nat → Option α) (n : Nat)
    (hb : ∀ m, m < n → sysAt m = none) (hs : (sysAt n).isSome = true) :
    ∀ fuel k, k + fuel = n + 1 → k ≤ n →
      waitForSystem sysAt fuel k = some n := by
  intro fuel
  induction fuel with
  | zero =>
    intro k hk hle
    omega
  | succ f ih =>
    intro k hk hle
    by_cases hkn : k = n
    · subst hkn
      obtain ⟨v, hv⟩ := Option.isSome_iff_exists.mp hs
      simp [waitForSystem, hv]
    · have hklt : k < n := Nat.lt_of_le_of_ne hle hkn
      have hstep : waitForSystem sysAt (f + 1) k = waitForSystem sysAt f (k + 1) := by
        simp [waitForSystem, hb k hklt]
      rw [hstep]
      exact ih (k + 1) (by omega) (by omega)

/-- Claim C7: on the success path of `_setup_websocket` exactly one
initial-snapshot request is sent, asking for the `system` module; and the
wait loop checks the shared model once per second (one sleep between
consecutive checks, by construction of `waitForSystem`), returning at the
first check that sees the module present — after exactly `n` one-second
sleeps when the data appears at check index `n`. -/
theorem c7_initial_data_wait {α : Type} (s : AppState) (env : WSEnv)
    (sysAt : Nat → Option α) (n : Nat)
    (henv : env.connectSecs ≤ 10 ∧ env.connectError = none
      ∧ env.postError = none ∧ env.totalSecs ≤ 10)
    (hb : ∀ m, m < n → sysAt m = none) (hs : (sysAt n).isSome = true) :
    (setupWebsocket s true env).1.dataRequests
        = s.dataRequests ++ [[SYSTEM_MODULE]]
    ∧ waitForSystem sysAt (n + 1) 0 = some n := by
  obtain ⟨h1, h2, h3, h4⟩ := henv
  constructor
  · have h10 : ¬(env.connectSecs > 10) := by omega
    have ht10 : ¬(env.totalSecs > 10) := by omega
    have hbody : setupWebsocketBody s true env
        = .ok {setupListener {s with connected := true} with
            dataRequests := (setupListener
              {s with connected := true}).dataRequests ++ [[SYSTEM_MODULE]]} := by
      unfold setupWebsocketBody
      simp [h10, h2, h3, ht10]
    unfold setupWebsocket
    rw [hbody]
    show (setupListener {s with connected := true}).dataRequests
        ++ [[SYSTEM_MODULE]] = s.dataRequests ++ [[SYSTEM_MODULE]]
    rw [setupListener_dataRequests]
  · exact waitForSystem_exact sysAt n hb hs (n + 1) 0 (by omega) (by omega)

theorem c7_witness :
    (setupWebsocket initialState true {}).1.dataRequests
        = (initialState : AppState).dataRequests ++ [[SYSTEM_MODULE]]
    ∧ waitForSystem (fun k => if k < 2 then none else some 0) (2 + 1) 0
        = some 2 :=
  c7_initial_data_wait initialState {}
    (fun k => if k < 2 then none else some 0) 2
    ⟨by decide, rfl, rfl, by decide⟩
    (fun m hm => by simp [hm]) (by decide)

theorem mainWindowQueryPairs_eq (token : String) (apiPort : Nat) :
    mainWindowQueryPairs token apiPort
      = [(QUERY_TOKEN, token), (QUERY_API_PORT, toString apiPort)] := by
  unfold mainWindowQueryPairs dictOfPairs
  rfl

theorem foldl_dictInsert_prefix (a b : String × String) :
    ∀ (l d : List (String × String)),
      (∀ kv ∈ l, kv.1 ≠ a.1 ∧ kv.1 ≠ b.1) →
      ∃ d', List.foldl dictInsert (a :: b :: d) l = a :: b :: d' := by
  intro l
  induction l with
  | nil =>
    intro d _
    exact ⟨d, rfl⟩
  | cons kv t ih =>
    intro d h
    have hkv := h kv (List.mem_cons_self kv t)
    have hstep : ∃ x, dictInsert (a :: b :: d) kv = a :: b :: x := by
      unfold dictInsert
      split
      · refine ⟨d.map fun p => if p.1 == kv.1 then (p.1, kv.2) else p, ?_⟩
        have ha : (a.1 == kv.1) = false :=
          beq_eq_false_iff_ne.mpr (Ne.symm hkv.1)
        have hb2 : (b.1 == kv.1) = false :=
          beq_eq_false_iff_ne.mpr (Ne.symm hkv.2)
        simp [ha, hb2, Ne.symm hkv.1, Ne.symm hkv.2]
      · exact ⟨d ++ [kv], by simp⟩
    obtain ⟨x, hx⟩ := hstep
    rw [List.foldl_cons, hx]
    exact ih x (fun kv' hkv' => h kv' (List.mem_cons_of_mem kv hkv'))

theorem playerQueryPairs_prefix (token : String) (apiPort : Nat)
    (fields : List (String × String))
    (h : ∀ kv ∈ fields, kv.1 ≠ QUERY_TOKEN ∧ kv.1 ≠ QUERY_API_PORT) :
    ∃ rest, playerQueryPairs token apiPort fields
      = (QUERY_TOKEN, token) :: (QUERY_API_PORT, toString apiPort) :: rest := by
  unfold playerQueryPairs dictOfPairs
  rw [List.cons_append, List.cons_append, List.nil_append,
    List.foldl_cons, List.foldl_cons]
  show ∃ rest, List.foldl dictInsert
    ((QUERY_TOKEN, token) :: (QUERY_API_PORT, toString apiPort) :: []) fields
      = _
  exact foldl_dictInsert_prefix _ _ fields [] h

theorem urlencode_cons (p : String × String) (l : List (String × String)) :
    urlencode (p :: l)
      = quotePlus p.1 ++ "=" ++ quotePlus p.2 ++ urlencodeTail l := by
  cases l with
  | nil => simp [urlencode, urlencodeTail]
  | cons q t => simp [urlencode, urlencodeTail, String.append_assoc]

theorem urlencodeTail_cons (q : String × String) (t : List (String × String)) :
    urlencodeTail (q :: t) = "&" ++ urlencode (q :: t) := rfl

theorem urlencodeTail_nil : urlencodeTail [] = "" := rfl

/-- Claim C5: the query string handed to the browser windows is exactly
`token=<token>&api-port=<apiPort>` — key order stable, both pairs
percent-encoded with `quote_plus` — and for the player window the
media-playback fields follow after those two pairs, which are neither
reordered nor dropped nor overridden (their keys are distinct from the
media fields'). -/
theorem c5_url_query (token : String) (apiPort : Nat) (path : String)
    (fields : List (String × String))
    (h : ∀ kv ∈ fields, kv.1 ≠ QUERY_TOKEN ∧ kv.1 ≠ QUERY_API_PORT) :
    urlencode (mainWindowQueryPairs token apiPort)
        = "token=" ++ quotePlus token ++ "&api-port="
          ++ quotePlus (toString apiPort)
    ∧ mainWindowUrl token apiPort path
        = "http://localhost:" ++ toString apiPort ++ path ++ "?"
          ++ ("token=" ++ quotePlus token ++ "&api-port="
            ++ quotePlus (toString apiPort))
    ∧ ∃ rest, playerQueryPairs token apiPort fields
        = (QUERY_TOKEN, token) :: (QUERY_API_PORT, toString apiPort) :: rest
        ∧ urlencode (playerQueryPairs token apiPort fields)
          = "token=" ++ quotePlus token ++ "&api-port="
            ++ quotePlus (toString apiPort) ++ urlencodeTail rest := by
  have qpt : quotePlus QUERY_TOKEN = "token" := by decide
  have qpa : quotePlus QUERY_API_PORT = "api-port" := by decide
  have l1 : ∀ x : String, "token" ++ ("=" ++ x) = "token=" ++ x := by
    intro x
    rw [← String.append_assoc]
    rfl
  have l2 : ∀ x : String,
      "&" ++ ("api-port" ++ ("=" ++ x)) = "&api-port=" ++ x := by
    intro x
    rw [← String.append_assoc, ← String.append_assoc]
    rfl
  have hmain : urlencode (mainWindowQueryPairs token apiPort)
      = "token=" ++ quotePlus token ++ "&api-port="
        ++ quotePlus (toString apiPort) := by
    rw [mainWindowQueryPairs_eq, urlencode_cons, urlencodeTail_cons,
      urlencode_cons, urlencodeTail_nil, qpt, qpa]
    simp only [String.append_empty, String.append_assoc, l2, l1]
  refine ⟨hmain, ?_, ?_⟩
  · unfold mainWindowUrl
    rw [hmain]
  · obtain ⟨rest, hrest⟩ := playerQueryPairs_prefix token apiPort fields h
    refine ⟨rest, hrest, ?_⟩
    rw [hrest, urlencode_cons, urlencodeTail_cons, urlencode_cons, qpt, qpa]
    simp only [String.append_assoc, l2, l1]

theorem c5_witness :
    (urlencode (mainWindowQueryPairs "abc" 8080)
        = "token=" ++ quotePlus "abc" ++ "&api-port=" ++ quotePlus (toString 8080)
    ∧ mainWindowUrl "abc" 8080 "/app/data.html"
        = "http://localhost:" ++ toString 8080 ++ "/app/data.html" ++ "?"
          ++ ("token=" ++ quotePlus "abc" ++ "&api-port="
            ++ quotePlus (toString 8080))
    ∧ ∃ rest, playerQueryPairs "abc" 8080 [("autoplay", "True")]
        = (QUERY_TOKEN, "abc") :: (QUERY_API_PORT, toString 8080) :: rest
        ∧ urlencode (playerQueryPairs "abc" 8080 [("autoplay", "True")])
          = "token=" ++ quotePlus "abc" ++ "&api-port="
            ++ quotePlus (toString 8080) ++ urlencodeTail rest) :=
  c5_url_query "abc" 8080 "/app/data.html" [("autoplay", "True")] (by decide)

end SystemBridgeGui
